import Mathlib

/-!
Verification of the iamcdkapp repository: a shallow embedding of the
configuration-handling code (trust-policy construction, config merging,
discovery filtering, inline-policy handling and YAML chunking) together
with theorems settling the frozen claims about it.

YAML/JSON documents are modelled by the inductive type Value below;
dictionaries are ordered association lists, matching Python dicts which
preserve insertion order.
-/
/-- A YAML/JSON-like value as handled by the Python scripts. Dictionaries
are ordered association lists keyed by strings (all keys appearing in the
repository's configuration documents are strings). -/
inductive Value where
  | vnull : Value
  | vbool : Bool → Value
  | vint : Int → Value
  | vstr : String → Value
  | vlist : List Value → Value
  | vdict : List (String × Value) → Value

/-- Lookup in an ordered association list, the first binding winning
(association lists here never hold duplicate keys, as Python dicts
cannot). -/
def lookupKey {β : Type} : List (String × β) → String → Option β
  | [], _ => none
  | (k0, v0) :: rest, k => if k0 = k then some v0 else lookupKey rest k

/-- Python d.get(k): look up a key in a dictionary value; none when the key
is absent or the value is not a dictionary. -/
def Value.lookup : Value → String → Option Value
  | .vdict kvs, k => lookupKey kvs k
  | _, _ => none

/-- Python truthiness of a value: None, False, 0, empty strings and empty
containers are falsy, everything else is truthy. -/
def Value.truthy : Value → Bool
  | .vnull => false
  | .vbool b => b
  | .vint n => n != 0
  | .vstr s => s != ""
  | .vlist l => !l.isEmpty
  | .vdict d => !d.isEmpty

/-- Python str() restricted to the scalar values the scripts apply it to
(strings, integers, booleans, None). The scripts never call str() on a
container, so containers are given a fixed placeholder rendering. -/
def pyStr : Value → String
  | .vstr s => s
  | .vint n => toString n
  | .vbool b => if b then "True" else "False"
  | .vnull => "None"
  | .vlist _ => "<list>"
  | .vdict _ => "<dict>"

/-- Python dictionary assignment d[k] = v on an ordered association list:
an existing key keeps its position and gets the new value, a new key is
appended at the end. -/
def setKey {β : Type} : List (String × β) → String → β → List (String × β)
  | [], k, v => [(k, v)]
  | (k0, v0) :: rest, k, v =>
    if k0 = k then (k, v) :: rest else (k0, v0) :: setKey rest k v

/-- Python dictionary assignment on a Value: acts on dictionaries and
leaves every other value unchanged (Python would raise TypeError there;
the theorems below carry shape hypotheses keeping to the dictionary case). -/
def Value.set : Value → String → Value → Value
  | .vdict kvs, k, v => .vdict (setKey kvs k v)
  | w, _, _ => w

/-- Python del d[k] on an ordered association list. -/
def delKey {β : Type} : List (String × β) → String → List (String × β)
  | [], _ => []
  | (k0, v0) :: rest, k =>
    if k0 = k then rest else (k0, v0) :: delKey rest k

/-- Python del on a Value dictionary; other values unchanged. -/
def Value.del : Value → String → Value
  | .vdict kvs, k => .vdict (delKey kvs k)
  | w, _ => w

/-- Python iteration over a value: a list yields its elements, a
dictionary yields its keys, a string yields its characters. Values Python
cannot iterate (None, numbers, booleans) yield nothing here; the scripts
never reach those cases on well-formed configurations. -/
def pyIter : Value → List Value
  | .vlist l => l
  | .vdict d => d.map (fun kv => Value.vstr kv.1)
  | .vstr s => s.toList.map (fun c => Value.vstr (String.singleton c))
  | _ => []

/-- Boolean substring test on strings, used to model Python's k in s when
s is a string. -/
def strHasSub (needle s : String) : Bool :=
  s.toList.tails.any (fun t => needle.toList.isPrefixOf t)

/-- Python membership test k in container for a string k: a key test on
dictionaries, a substring test on strings, an element test on lists. -/
def pyContains (container : Value) (k : String) : Bool :=
  match container with
  | .vdict d => (lookupKey d k).isSome
  | .vstr s => strHasSub k s
  | .vlist l => l.any (fun v => match v with | .vstr s => s == k | _ => false)
  | _ => false

/-- Python str.isdigit restricted to ASCII strings: true exactly when the
string is non-empty and every character is a decimal digit. -/
def pyIsDigit (s : String) : Bool :=
  s != "" && s.toList.all Char.isDigit

/-!
Trust-policy construction in the provisioning stack
(src/iam_cdk_app/iam_cdk_app_stack.py, class IamRoleConfigStack).
-/

/-- A CDK principal object as built by the stack: iam.ServicePrincipal or
iam.ArnPrincipal. -/
inductive Principal where
  | service : String → Principal
  | arnP : String → Principal
deriving DecidableEq

/-- The Service block of IamRoleConfigStack.get_principals_from_statement
(iam_cdk_app_stack.py lines 111-115): a bare string is treated as a
one-element list, and anything else is iterated. -/
def servicePrincipalsOf (psec : Value) : List Principal :=
  match psec.lookup "Service" with
  | none => []
  | some (.vstr s) => [Principal.service s]
  | some v => (pyIter v).map (fun sp => Principal.service (pyStr sp))

/-- The AWS block of get_principals_from_statement (lines 117-127): a
string, integer or boolean is wrapped in a one-element list (Python
isinstance(x, (str, int)) also accepts bool), anything else is iterated
with str() applied to each element; a digit-string entry becomes the
account-root ARN principal, every other entry an ARN principal with that
exact string. -/
def awsPrincipalsOf (psec : Value) : List Principal :=
  match psec.lookup "AWS" with
  | none => []
  | some v =>
    let arns :=
      match v with
      | .vstr s => [s]
      | .vint n => [pyStr (.vint n)]
      | .vbool b => [pyStr (.vbool b)]
      | w => (pyIter w).map pyStr
    arns.map (fun arn =>
      if pyIsDigit arn then Principal.arnP ("arn:aws:iam::" ++ arn ++ ":root")
      else Principal.arnP arn)

def get_principals_from_statement (statement : Value) : List Principal :=
  match statement.lookup "Principal" with
  | none => []
  | some psec => servicePrincipalsOf psec ++ awsPrincipalsOf psec

/-- A CDK iam.PolicyStatement as built by the stack. The effect is always
ALLOW in this code path and is not recorded. The conditions field models
the conditions=... or None argument. -/
structure PolicyStatement where
  actions : List String
  principals : List Principal
  conditions : Option Value

/-- Condition injection in create_assume_role_policy_statements
(iam_cdk_app_stack.py lines 89-92): ensure a StringEquals entry exists,
then set its sts:ExternalId key to the external_ids value. An existing
StringEquals entry keeps its position and its other keys. -/
def injectExternalIds (conditions : Value) (external_ids : Value) : Value :=
  let se :=
    match conditions.lookup "StringEquals" with
    | some v => v
    | none => Value.vdict []
  conditions.set "StringEquals" (se.set "sts:ExternalId" external_ids)

/-- The list the statement loop of create_assume_role_policy_statements
iterates over: the trust policy's Statement entry. create_iam_role
(lines 41-42) guarantees this entry is present and a list before the
loop runs. -/
def trustStatements (trust_policy : Value) : List Value :=
  match trust_policy.lookup "Statement" with
  | some (.vlist l) => l
  | _ => []

/-- Condition dictionary of a trust-policy statement as read at line 87:
statement.get('Condition', dict()). -/
def statementCondition (statement : Value) : Value :=
  match statement.lookup "Condition" with
  | some c => c
  | none => Value.vdict []

/-- StringEquals block of a statement's condition dictionary, defaulting
to an empty dictionary, as the injection at lines 90-92 sees it. -/
def statementStringEquals (statement : Value) : Value :=
  match (statementCondition statement).lookup "StringEquals" with
  | some v => v
  | none => Value.vdict []

/-- One iteration of the statement loop in
create_assume_role_policy_statements (iam_cdk_app_stack.py lines 85-101):
extract principals, read the Condition dictionary, inject the external
ids when the external_ids value is truthy, and build the policy statement
with actions ["sts:AssumeRole"] and conditions or None. -/
def mkAssumeStatement (external_ids : Value) (statement : Value) : PolicyStatement :=
  let principals := get_principals_from_statement statement
  let conditions := statementCondition statement
  let conditions :=
    if external_ids.truthy then injectExternalIds conditions external_ids else conditions
  { actions := ["sts:AssumeRole"]
    principals := principals
    conditions := if conditions.truthy then some conditions else none }

/-- Embedding of IamRoleConfigStack.create_assume_role_policy_statements
(iam_cdk_app_stack.py lines 81-103). -/
def create_assume_role_policy_statements (trust_policy : Value) (external_ids : Value) :
    List PolicyStatement :=
  (trustStatements trust_policy).map (mkAssumeStatement external_ids)

/-- The flattening at iam_cdk_app_stack.py line 61: the principals of all
assume-role policy statements, in statement order, handed to
iam.CompositePrincipal when the role is created. -/
def compositePrincipals (statements : List PolicyStatement) : List Principal :=
  (statements.map PolicyStatement.principals).flatten

/-- Stated from claim C1's words: a principal-section entry that is a
string stands for itself alone, a list for its elements. -/
def claimEntries : Option Value → List String
  | some (.vstr s) => [s]
  | some (.vlist l) => l.map pyStr
  | _ => []

/-- Stated from claim C1's words: every entry under Service becomes one
service principal; every entry under AWS that is a string of digits
becomes the account-root ARN principal arn:aws:iam::digits:root; every
other AWS entry becomes an ARN principal with that exact string. -/
def claimPrincipalsOfStatement (statement : Value) : List Principal :=
  match statement.lookup "Principal" with
  | none => []
  | some psec =>
    (claimEntries (psec.lookup "Service")).map Principal.service ++
    (claimEntries (psec.lookup "AWS")).map (fun a =>
      if pyIsDigit a then Principal.arnP ("arn:aws:iam::" ++ a ++ ":root")
      else Principal.arnP a)

/-- Shape check for the Service entry of a principal section: absent, a
string, or a list — the shapes claim C1 speaks about. -/
def serviceShapeOk (psec : Value) : Bool :=
  match psec.lookup "Service" with
  | none => true
  | some (.vstr _) => true
  | some (.vlist _) => true
  | some _ => false

/-- Shape check for the AWS entry of a principal section: absent, a
string, or a list — the shapes claim C1 speaks about (on integer or other
shapes the claim is silent). -/
def awsShapeOk (psec : Value) : Bool :=
  match psec.lookup "AWS" with
  | none => true
  | some (.vstr _) => true
  | some (.vlist _) => true
  | some _ => false

/-- Shape check used by the C1 theorem: the statement's Service and AWS
entries, if any, are each a string or a list. -/
def principalShapeOk (statement : Value) : Bool :=
  match statement.lookup "Principal" with
  | none => true
  | some psec => serviceShapeOk psec && awsShapeOk psec

/-- Shape check used by the C4 theorem: the statement's Condition entry,
when present, is a dictionary whose StringEquals entry, when present, is
itself a dictionary. On other shapes the Python code would raise
TypeError while indexing. -/
def condShapeOk (statement : Value) : Bool :=
  match statement.lookup "Condition" with
  | none => true
  | some (.vdict d) =>
    (match lookupKey d "StringEquals" with
     | none => true
     | some (.vdict _) => true
     | some _ => false)
  | some _ => false

/-- Concrete trust policy used by the C1 witness: a service-principal
statement and a statement with an account-number and a role-ARN AWS
principal. -/
def c1TrustPolicy : Value :=
  Value.vdict [("Version", Value.vstr "2012-10-17"),
    ("Statement", Value.vlist [
      Value.vdict [("Effect", Value.vstr "Allow"),
        ("Principal", Value.vdict [("Service", Value.vstr "ec2.amazonaws.com")]),
        ("Action", Value.vstr "sts:AssumeRole")],
      Value.vdict [("Effect", Value.vstr "Allow"),
        ("Principal", Value.vdict [
          ("Service", Value.vlist [Value.vstr "lambda.amazonaws.com"]),
          ("AWS", Value.vlist [Value.vstr "111122223333",
            Value.vstr "arn:aws:iam::111122223333:role/other"])]),
        ("Action", Value.vstr "sts:AssumeRole")]])]

/-- Concrete trust-policy statement used by the C4 witness: an existing
Condition with a StringEquals block holding an unrelated key. -/
def c4Statement : Value :=
  Value.vdict [("Effect", Value.vstr "Allow"),
    ("Principal", Value.vdict [("AWS", Value.vstr "arn:aws:iam::111122223333:root")]),
    ("Action", Value.vstr "sts:AssumeRole"),
    ("Condition", Value.vdict [
      ("StringEquals", Value.vdict [("aws:PrincipalOrgID", Value.vstr "o-12345")]),
      ("Bool", Value.vdict [("aws:SecureTransport", Value.vstr "true")])])]

/-!
Inline policies: the current stack (src/iam_cdk_app/iam_cdk_app_stack.py,
create_inline_policies, lines 131-147), the backup stack
(src/iam_cdk_app/iam_cdk_app_stack-backup.py, create_inline_policies,
lines 65-92) and the discovery script's stripping of empty Condition
blocks (src/iamConfigs/appendnewscript.py, create_yaml_content, lines
168-176).
-/

/-- Python d[k] on documents the code has already guarded with a key test
(a missing key, which would raise KeyError, is mapped to None here; every
use below sits behind the code's own containment checks). -/
def pyIndex (v : Value) (k : String) : Value :=
  (v.lookup k).getD Value.vnull

/-- Python x if isinstance(x, list) else [x]. -/
def listify (v : Value) : List Value :=
  match v with
  | .vlist l => l
  | w => [w]

/-- An inline-policy statement as rebuilt by the current stack's
create_inline_policies (iam_cdk_app_stack.py lines 137-144): only the
Action and Resource fields survive, each coerced to a list; the effect is
always ALLOW and any Condition, original Effect or other field of the
source statement is not carried over. -/
structure SimpleStatement where
  actions : List Value
  resources : List Value

/-- The statement comprehension of the current stack's
create_inline_policies (iam_cdk_app_stack.py lines 137-144): keep the
source statements that have Action and Resource and no Principal, and
rebuild each from its Action and Resource fields only. -/
def rebuildStatements (doc : Value) : List SimpleStatement :=
  (pyIter (pyIndex doc "Statement")).filterMap
    (fun stmt =>
      if pyContains stmt "Action" && pyContains stmt "Resource"
          && !pyContains stmt "Principal" then
        some { actions := listify (pyIndex stmt "Action")
               resources := listify (pyIndex stmt "Resource") }
      else none)

/-- Embedding of the current stack's create_inline_policies
(iam_cdk_app_stack.py lines 131-147). The configured value is iterated
Python-style (a list yields its entries, a dictionary its keys); entries
containing both policyName and policyDocument — for a string entry these
are substring tests — contribute a rebuilt policy document under their
policy name. -/
def create_inline_policies (inline_policies_config : Value) :
    List (String × List SimpleStatement) :=
  (pyIter inline_policies_config).foldl
    (fun acc policy =>
      if pyContains policy "policyName" && pyContains policy "policyDocument" then
        setKey acc (pyStr (pyIndex policy "policyName"))
          (rebuildStatements (pyIndex policy "policyDocument"))
      else acc)
    []

/-- The CloudFormation JSON the CDK synthesizes for one rebuilt inline
statement: Action and Resource lists and the fixed Allow effect. -/
def renderSimpleStatement (st : SimpleStatement) : Value :=
  Value.vdict [("Action", Value.vlist st.actions),
    ("Effect", Value.vstr "Allow"),
    ("Resource", Value.vlist st.resources)]

/-- The CloudFormation JSON the CDK synthesizes for a rebuilt inline
policy document (iam.PolicyDocument adds the fixed Version). -/
def renderPolicyDocument (sts : List SimpleStatement) : Value :=
  Value.vdict [("Statement", Value.vlist (sts.map renderSimpleStatement)),
    ("Version", Value.vstr "2012-10-17")]

/-- Empty-Condition stripping applied per statement, shared between the
backup stack (iam_cdk_app_stack-backup.py lines 76-78) and
appendnewscript.py (lines 172-174): a present but falsy Condition value
has its key deleted; a truthy one is kept untouched. -/
def stripStatementEmptyCond (stmt : Value) : Value :=
  match stmt.lookup "Condition" with
  | some c => if c.truthy then stmt else stmt.del "Condition"
  | none => stmt

/-- Empty-Condition stripping applied across a policy document's
Statement list (both scripts iterate policy_document.get('Statement', [])
and mutate the statements in place). -/
def stripDocEmptyConds (doc : Value) : Value :=
  match doc.lookup "Statement" with
  | some (.vlist l) => doc.set "Statement" (Value.vlist (l.map stripStatementEmptyCond))
  | _ => doc

/-- Embedding of the backup stack's create_inline_policies
(iam_cdk_app_stack-backup.py lines 65-92): the configuration must be a
dictionary (anything else logs an error and yields no policies); each
entry with a truthy document is appended as a PolicyProperty keeping the
document with empty Condition blocks stripped. -/
def create_inline_policies_backup (inline_policies_config : Value) :
    List (String × Value) :=
  match inline_policies_config with
  | .vdict entries =>
    entries.foldl
      (fun acc kv =>
        if kv.2.truthy then acc ++ [(kv.1, stripDocEmptyConds kv.2)] else acc)
      []
  | _ => []

/-- The inline-policy post-processing of appendnewscript.py's
create_yaml_content (lines 168-176): every document of the fetched
inline-policy mapping is kept under its name with empty Condition blocks
stripped. -/
def processInlinePolicies (inline_policies : List (String × Value)) :
    List (String × Value) :=
  inline_policies.map (fun kv => (kv.1, stripDocEmptyConds kv.2))

/-!
Role creation: the current stack (iam_cdk_app_stack.py, create_iam_role,
lines 37-79) with its ValueError guard, and the backup stack
(iam_cdk_app_stack-backup.py, create_iam_role, lines 22-63) building a
CfnRole with an optional RETAIN deletion policy.
-/

/-- A Python exception as raised by the embedded code paths. The
nameError payload is the undefined identifier being read. -/
inductive PyError where
  | keyError : String → PyError
  | valueError : String → PyError
  | nameError : String → PyError
deriving DecidableEq

/-- The guard at iam_cdk_app_stack.py line 41: the trust policy has a
Statement entry and it is a list. -/
def statementIsList (trust_policy : Value) : Bool :=
  match trust_policy.lookup "Statement" with
  | some (.vlist _) => true
  | _ => false

/-- The iam.Role resource assembled by the current stack's
create_iam_role (iam_cdk_app_stack.py lines 37-79). -/
structure RoleResource where
  roleName : Value
  assumedBy : List Principal
  policyStatements : List PolicyStatement
  managedPolicyArns : List Value
  inlinePolicies : Option (List (String × List SimpleStatement))
  description : Option Value
  maxSessionDuration : Value
  path : Option Value
  permissionsBoundary : Option Value
  tags : List (Value × Value)

/-- Embedding of the current stack's create_iam_role (iam_cdk_app_stack.py
lines 37-79): read the trust policy (defaulting to an empty dictionary),
raise ValueError naming the role when its Statement entry is missing or
not a list, and otherwise assemble the role resource: assume-role policy
statements, the flattened composite principal, managed-policy ARNs,
inline policies (None when empty), description, session duration
(default 3600), path, permission boundary and tags. -/
def create_iam_role (role : Value) : Except PyError RoleResource :=
  let trust_policy := (role.lookup "trustPolicy").getD (Value.vdict [])
  if statementIsList trust_policy then
    match role.lookup "roleName" with
    | none => .error (.keyError "roleName")
    | some rn =>
      let external_ids := (role.lookup "externalIds").getD (Value.vlist [])
      let statements := create_assume_role_policy_statements trust_policy external_ids
      let inline := create_inline_policies ((role.lookup "inlinePolicies").getD (Value.vlist []))
      .ok { roleName := rn
            assumedBy := compositePrincipals statements
            policyStatements := statements
            managedPolicyArns := pyIter ((role.lookup "managedPolicies").getD (Value.vlist []))
            inlinePolicies := if inline.isEmpty then none else some inline
            description := role.lookup "description"
            maxSessionDuration := (role.lookup "sessionDuration").getD (Value.vint 3600)
            path := role.lookup "iamPath"
            permissionsBoundary := role.lookup "permissionBoundary"
            tags := (pyIter ((role.lookup "tags").getD (Value.vlist []))).map
              (fun tag => (pyIndex tag "key", pyIndex tag "value")) }
  else
    match role.lookup "roleName" with
    | none => .error (.keyError "roleName")
    | some rn =>
      .error (.valueError ("Statement should be a list for role " ++ pyStr rn))

/-- The constructor loop of IamRoleConfigStack (iam_cdk_app_stack.py
lines 20-21): create each configured role in order; a raised exception
aborts the whole stack construction. -/
def create_roles (roles : List Value) : Except PyError (List RoleResource) :=
  match roles with
  | [] => .ok []
  | r :: rest =>
    match create_iam_role r with
    | .error e => .error e
    | .ok x =>
      match create_roles rest with
      | .error e => .error e
      | .ok xs => .ok (x :: xs)

/-- The AWS::IAM::Role resource assembled by the backup stack's
create_iam_role (iam_cdk_app_stack-backup.py lines 22-63) via CfnRole:
properties are added only when configured, and the CfnDeletionPolicy is
RETAIN exactly when the configuration says so. -/
structure CfnRole where
  assumeRolePolicyDocument : Value
  roleName : Value
  description : Option Value
  maxSessionDuration : Option Value
  path : Option Value
  permissionsBoundary : Option Value
  managedPolicyArns : Option Value
  policies : Option (List (String × Value))
  tags : Option (List (Value × Value))
  deletionPolicyRetain : Bool

/-- Embedding of the backup stack's create_iam_role
(iam_cdk_app_stack-backup.py lines 22-63). The trust policy JSON is
injected directly; managed-policy ARNs are passed through as configured
(attached purely by ARN reference); inline policies come from
create_inline_policies_backup; the deletion policy is RETAIN exactly
when the configured deletionPolicy value equals the string RETAIN. -/
def create_iam_role_backup (role : Value) : Except PyError CfnRole :=
  let trust_policy := (role.lookup "trustPolicy").getD (Value.vdict [])
  let inline := create_inline_policies_backup ((role.lookup "inlinePolicies").getD (Value.vdict []))
  match role.lookup "roleName" with
  | none => .error (.keyError "roleName")
  | some rn =>
    .ok { assumeRolePolicyDocument := trust_policy
          roleName := rn
          description := role.lookup "description"
          maxSessionDuration := role.lookup "sessionDuration"
          path := role.lookup "iamPath"
          permissionsBoundary := role.lookup "permissionsBoundary"
          managedPolicyArns :=
            match role.lookup "managedPolicies" with
            | some v => if v.truthy then some v else none
            | none => none
          policies := if inline.isEmpty then none else some inline
          tags :=
            match role.lookup "tags" with
            | some v =>
              if v.truthy then
                some ((pyIter v).map (fun tag => (pyIndex tag "key", pyIndex tag "value")))
              else none
            | none => none
          deletionPolicyRetain :=
            match role.lookup "deletionPolicy" with
            | some (.vstr s) => s == "RETAIN"
            | _ => false }

/-- Inline-policy document with a statement carrying a non-empty
Condition block, for the C5 counterexample and witness. -/
def c5Doc : Value :=
  Value.vdict [("Version", Value.vstr "2012-10-17"),
    ("Statement", Value.vlist [
      Value.vdict [("Effect", Value.vstr "Allow"),
        ("Action", Value.vstr "s3:ListBucket"),
        ("Resource", Value.vstr "*"),
        ("Condition", Value.vdict [("StringEquals",
          Value.vdict [("s3:delimiter", Value.vstr "/")])])]])]

/-- The inlinePolicies configuration shape handled by the current stack:
a list of policyName/policyDocument entries, holding c5Doc. -/
def c5Config : Value :=
  Value.vlist [Value.vdict [("policyName", Value.vstr "p1"),
    ("policyDocument", c5Doc)]]

/-- Does any statement of the document carry a Condition key? -/
def docHasCondition (doc : Value) : Bool :=
  match doc.lookup "Statement" with
  | some (.vlist l) => l.any (fun st => pyContains st "Condition")
  | _ => false

/-- Statement dictionary for the C5 witness: a falsy Condition that the
stripping removes. -/
def c5WitnessStmt : List (String × Value) :=
  [("Effect", Value.vstr "Allow"), ("Action", Value.vstr "s3:ListBucket"),
   ("Resource", Value.vstr "*"), ("Condition", Value.vdict [])]

/-- Role configuration for the C5 witness, with a managed-policy ARN
list. -/
def c5WitnessRole : Value :=
  Value.vdict [("roleName", Value.vstr "r1"),
    ("managedPolicies", Value.vlist [Value.vstr
      "arn:aws:iam::aws:policy/AmazonEC2FullAccess"])]

/-- Inline-policy document from the unit test
test_inline_policy_creation (src/tests/unit/test_iam_cdk_app_stack.py
lines 52-63). -/
def c7Doc : Value :=
  Value.vdict [("Version", Value.vstr "2012-10-17"),
    ("Statement", Value.vlist [
      Value.vdict [("Effect", Value.vstr "Allow"),
        ("Action", Value.vstr "s3:ListBucket"),
        ("Resource", Value.vstr "*")]])]

/-- The mapping shape of inlinePolicies, exactly as the unit test passes
it to the current stack. -/
def c7Mapping : Value := Value.vdict [("s3ReadOnlyPolicy", c7Doc)]

/-- The list shape of inlinePolicies for the same policy. -/
def c7Listing : Value :=
  Value.vlist [Value.vdict [("policyName", Value.vstr "s3ReadOnlyPolicy"),
    ("policyDocument", c7Doc)]]

/-- Role configuration from test_iam_role_with_deletion_policy_retain
(src/tests/unit/test_iam_cdk_app_stack.py lines 127-150). -/
def c6Role : Value :=
  Value.vdict [("roleName", Value.vstr "TestRoleWithRetain"),
    ("deletionPolicy", Value.vstr "RETAIN")]

/-- A role with a different deletionPolicy value, for the second half of
the C6 witness. -/
def c6RoleDelete : Value :=
  Value.vdict [("roleName", Value.vstr "OtherRole"),
    ("deletionPolicy", Value.vstr "DELETE")]

/-- A role whose trust policy has no Statement entry, for the C9
witness. -/
def c9BadRole : Value :=
  Value.vdict [("roleName", Value.vstr "TestRole"),
    ("trustPolicy", Value.vdict [])]

/-- A well-formed role preceding the bad one in the C9 witness. -/
def c9GoodRole : Value :=
  Value.vdict [("roleName", Value.vstr "GoodRole"),
    ("trustPolicy", Value.vdict [("Version", Value.vstr "2012-10-17"),
      ("Statement", Value.vlist [])])]

/-!
Configuration loading and merging (src/app.py lines 22-53 and
src/app-backup.py lines 26-48, which are identical).
-/

/-- Embedding of load_account_info (app.py lines 22-29): read account_id,
wrapping a bare string into a one-element list, and the roles entry
(defaulting to an empty list). The returned values are the raw entries;
the caller iterates them. -/
def load_account_info (doc : Value) : Value × Value :=
  let account_ids := (doc.lookup "account_id").getD Value.vnull
  let account_ids :=
    match account_ids with
    | .vstr s => Value.vlist [Value.vstr s]
    | v => v
  (account_ids, (doc.lookup "roles").getD (Value.vlist []))

/-- One account update of the combined_configs loop (app.py lines 50-53):
a known account id has the roles appended to its list in place, a new one
is appended at the end of the dictionary with those roles. -/
def extendAt : List (String × List Value) → String → List Value → List (String × List Value)
  | [], a, rs => [(a, rs)]
  | (k, v) :: rest, a, rs =>
    if k = a then (k, v ++ rs) :: rest else (k, v) :: extendAt rest a rs

/-- One document of the combined_configs construction (app.py lines
48-53): for each of the document's account ids, the document's roles are
appended to that account's combined list. Account ids are used as
dictionary keys through their string rendering. -/
def combined_step (acc : List (String × List Value)) (doc : Value) :
    List (String × List Value) :=
  let info := load_account_info doc
  (pyIter info.1).foldl
    (fun acc a => extendAt acc (pyStr a) (pyIter info.2)) acc

/-- Embedding of the combined_configs construction (app.py lines 44-53):
fold the per-document step over the documents in file order. -/
def combined_configs (docs : List Value) : List (String × List Value) :=
  docs.foldl combined_step []

/-- The combined role list of one account (an absent account has no
roles). -/
def lookupRoles (configs : List (String × List Value)) (a : String) : List Value :=
  (lookupKey configs a).getD []

/-- A CDK stack environment as created by the loop at app.py lines 74-83. -/
structure StackEnv where
  account : String
  region : String
  stackName : String
  roles : List Value

/-- The stack-creation loop of app.py (lines 74-83): one stack per
combined account, with the hard-coded region us-east-1 and stack name
IamRoleConfigStack-account. The configured region, if any, is never read
by this code. -/
def make_stacks (docs : List Value) : List StackEnv :=
  (combined_configs docs).map
    (fun kv =>
      { account := kv.1
        region := "us-east-1"
        stackName := "IamRoleConfigStack-" ++ kv.1
        roles := kv.2 })

/-- The account-id strings of a document, as combined_configs iterates
them. -/
def docAccountStrings (doc : Value) : List String :=
  (pyIter (load_account_info doc).1).map pyStr

/-- The roles of a document, as combined_configs extends them. -/
def docRoles (doc : Value) : List Value :=
  pyIter (load_account_info doc).2

/-- Stated from claim C2's words: documents sharing an account_id are
combined by concatenating both their roles and their iam_policies lists,
in file order. -/
def extendAt2 : List (String × (List Value × List Value)) → String →
    List Value × List Value → List (String × (List Value × List Value))
  | [], a, p => [(a, p)]
  | (k, v) :: rest, a, p =>
    if k = a then (k, (v.1 ++ p.1, v.2 ++ p.2)) :: rest
    else (k, v) :: extendAt2 rest a p

/-- Stated from claim C2's words: the combined configuration of an
account holds the concatenation of the roles lists and of the
iam_policies lists of all documents naming that account. -/
def spec_combined_configs (docs : List Value) :
    List (String × (List Value × List Value)) :=
  docs.foldl
    (fun acc doc =>
      let info := load_account_info doc
      let policies := pyIter ((doc.lookup "iam_policies").getD (Value.vlist []))
      (pyIter info.1).foldl
        (fun acc a => extendAt2 acc (pyStr a) (pyIter info.2, policies)) acc)
    []

/-- Document with one role and one managed policy for the C2
counterexample. -/
def c2DocA : Value :=
  Value.vdict [("account_id", Value.vstr "111122223333"),
    ("roles", Value.vlist [Value.vdict [("roleName", Value.vstr "r1")]]),
    ("iam_policies", Value.vlist [Value.vdict [("policyName", Value.vstr "p1")]])]

/-- The same document with an empty iam_policies list. -/
def c2DocB : Value :=
  Value.vdict [("account_id", Value.vstr "111122223333"),
    ("roles", Value.vlist [Value.vdict [("roleName", Value.vstr "r1")]]),
    ("iam_policies", Value.vlist [])]

/-- Configuration document for the C8 witness: account_id a bare string
and no region entry. -/
def c8Doc : Value :=
  Value.vdict [("account_id", Value.vstr "596905249077"),
    ("roles", Value.vlist [])]

/-!
Claim C3: discovery filtering (src/iamConfigs/appendnewscript.py,
list_iam_roles lines 11-40 and main lines 244-270; the CloudFormation
subtraction also appears as filter_roles in
src/iamConfigs/cdkImportAutomationScript1.py lines 197-203).
-/

/-- Python str.startswith, modelled on character lists. -/
def pyStartsWith (s p : String) : Bool :=
  p.toList.isPrefixOf s.toList

/-- An IAM role as returned by the list_roles pages. -/
structure IamRole where
  roleName : String
  path : String
  arn : String
deriving DecidableEq

/-- Embedding of list_iam_roles (appendnewscript.py lines 11-40) over the
pages already fetched, including its defect. The parameter named
exclude_role_prefix (here exclude_role_prefix_arg) is never read: the
loop body reads the undefined name exclude_role_prefixes, so evaluating
the third conjunct raises NameError. The conjunction short-circuits: a
role whose ARN starts with arn:aws:iam::aws:role/, or whose path starts
with an excluded path, is excluded without reaching that conjunct; the
first role passing both checks aborts the whole listing with NameError.
The surrounding try catches only BotoCoreError and ClientError, so the
NameError escapes; consequently the ok result can only ever be the empty
list. -/
def list_iam_roles (excludePathList exclude_role_prefix_arg : List String)
    (roles : List IamRole) : Except PyError (List IamRole) :=
  match roles with
  | [] => .ok []
  | role :: rest =>
    if pyStartsWith role.arn "arn:aws:iam::aws:role/" then
      list_iam_roles excludePathList exclude_role_prefix_arg rest
    else if excludePathList.any (fun p => pyStartsWith role.path p) then
      list_iam_roles excludePathList exclude_role_prefix_arg rest
    else
      .error (.nameError "exclude_role_prefixes")

/-- The fixed excluded paths of main (appendnewscript.py lines 244-249). -/
def excludePaths : List String :=
  ["/aws-reserved/", "/aws-service-role/", "/service-role/", "/cdk-hnb"]

/-- The fixed excluded role-name beginnings of main (line 250). -/
def excludeRoleNameStarts : List String :=
  ["cdk-hnb659fds", "StackSet", "AWSControlTower"]

/-- The emitted role set of main (appendnewscript.py lines 259-270):
list_iam_roles with the fixed exclusion lists — whose NameError, when
raised, propagates out of main, so nothing is emitted — then drop every
role whose name is among the physical IDs of IAM roles tracked by
CloudFormation stacks. -/
def emitted_roles (roles : List IamRole) (cf_stack_role_names : List String) :
    Except PyError (List IamRole) :=
  match list_iam_roles excludePaths excludeRoleNameStarts roles with
  | .error e => .error e
  | .ok kept => .ok (kept.filter (fun role => !(cf_stack_role_names.elem role.roleName)))

/-- Stated from claim C3's words: the emitted set is exactly all listed
roles minus the path-excluded, minus the name-excluded, minus the
CloudFormation-tracked ones — with no exclusion by ARN. -/
def claim_emitted_roles (roles : List IamRole) (cf_stack_role_names : List String) :
    List IamRole :=
  roles.filter (fun role =>
    !(excludePaths.any (fun p => pyStartsWith role.path p))
    && !(excludeRoleNameStarts.any (fun p => pyStartsWith role.roleName p))
    && !(cf_stack_role_names.elem role.roleName))

/-- A role excluded only by the ARN test: reserved-looking ARN, plain
path, name matching no excluded beginning, not tracked by
CloudFormation. -/
def c3AwsRole : IamRole :=
  { roleName := "SomeRole"
    path := "/"
    arn := "arn:aws:iam::aws:role/SomeRole" }

/-- A role surviving both the ARN and the reserved-path checks, on which
the real script raises NameError. -/
def c3PlainRole : IamRole :=
  { roleName := "PlainRole"
    path := "/"
    arn := "arn:aws:iam::111122223333:role/PlainRole" }

/-!
Claim C10: YAML chunking (src/iamConfigs/cdkImportAutomationScript1.py,
split_yaml_content lines 326-368, called from main lines 453-457 with the
default limit of 450 resources per file).
-/

/-- The chunk comprehension of split_yaml_content (line 339):
consecutive slices of at most n elements. The n = 0 case never arises
(the limit is 450; Python's range would reject a zero step). -/
def chunksOf {α : Type} (n : Nat) (l : List α) : List (List α) :=
  if h1 : l.isEmpty then []
  else if h2 : n = 0 then []
  else l.take n :: chunksOf n (l.drop n)
termination_by l.length
decreasing_by
  have hl : l ≠ [] := by
    intro he
    rw [he] at h1
    exact h1 rfl
  have hpos : 0 < l.length := List.length_pos.mpr hl
  have hn : 0 < n := Nat.pos_of_ne_zero h2
  simp only [List.length_drop]
  omega

/-- One output file of split_yaml_content: the stack name and the chunk's
resources separated into policies and roles. -/
structure YamlChunk where
  stack_name : String
  iam_policies : List Value
  roles : List Value

/-- Embedding of split_yaml_content (cdkImportAutomationScript1.py lines
326-368): concatenate iam_policies and roles, cut into chunks of at most
max_resources_per_file, and emit per chunk the resources containing
policyName as iam_policies and those containing roleName as roles; the
first chunk keeps the original stack name, later chunks get a -PartN
suffix. -/
def split_yaml_content (iam_policies roles : List Value) (stack_name : String)
    (max_resources_per_file : Nat) : List YamlChunk :=
  (chunksOf max_resources_per_file (iam_policies ++ roles)).mapIdx
    (fun i chunk =>
      { stack_name := if i = 0 then stack_name else stack_name ++ "-Part" ++ toString i
        iam_policies := chunk.filter (fun resource => pyContains resource "policyName")
        roles := chunk.filter (fun resource => pyContains resource "roleName") })

/-- A managed-policy resource for the C10 witness. -/
def c10Policy : Value :=
  Value.vdict [("policyName", Value.vstr "p1"), ("deletionPolicy", Value.vstr "RETAIN")]

/-- A role resource for the C10 witness. -/
def c10Role : Value :=
  Value.vdict [("roleName", Value.vstr "r1"), ("deletionPolicy", Value.vstr "RETAIN")]

/-!
Theorems: association-list lemmas first, then the claim theorems
with their witnesses and counterexamples.
-/

/-!
Association-list lemmas about setKey and lookupKey, matching Python
dictionary assignment and lookup.
-/

theorem lookupKey_setKey_self {β : Type} (d : List (String × β)) (k : String) (v : β) :
    lookupKey (setKey d k v) k = some v := by
  induction d with
  | nil => simp [setKey, lookupKey]
  | cons hd tl ih =>
    obtain ⟨k0, v0⟩ := hd
    by_cases hk : k0 = k
    · simp [setKey, hk, lookupKey]
    · simp [setKey, hk, lookupKey, ih]

theorem lookupKey_setKey_ne {β : Type} (d : List (String × β)) (k k2 : String) (v : β)
    (h : k2 ≠ k) : lookupKey (setKey d k v) k2 = lookupKey d k2 := by
  induction d with
  | nil => simp [setKey, lookupKey, Ne.symm h]
  | cons hd tl ih =>
    obtain ⟨k0, v0⟩ := hd
    by_cases hk : k0 = k
    · subst hk
      simp [setKey, lookupKey, Ne.symm h]
    · simp [setKey, hk, lookupKey, ih]

theorem setKey_ne_nil {β : Type} (d : List (String × β)) (k : String) (v : β) :
    setKey d k v ≠ [] := by
  cases d with
  | nil => simp [setKey]
  | cons hd tl =>
    obtain ⟨k0, v0⟩ := hd
    simp only [setKey]
    split <;> simp

/-- Destructor for the C4 shape check: a statement passing condShapeOk has
a dictionary condition block d and a dictionary StringEquals block m, and
the condition injection rewrites them by the two setKey assignments. -/
theorem condShape_dest (stmt : Value) (ext : Value) (h : condShapeOk stmt = true) :
    ∃ d m, statementCondition stmt = Value.vdict d
      ∧ statementStringEquals stmt = Value.vdict m
      ∧ injectExternalIds (statementCondition stmt) ext
          = Value.vdict (setKey d "StringEquals"
              (Value.vdict (setKey m "sts:ExternalId" ext))) := by
  cases hc : stmt.lookup "Condition" with
  | none =>
    have h1 : statementCondition stmt = Value.vdict [] := by
      simp [statementCondition, hc]
    refine ⟨[], [], h1, ?_, ?_⟩
    · simp [statementStringEquals, h1, Value.lookup, lookupKey]
    · rw [h1]
      rfl
  | some cv =>
    have h1 : statementCondition stmt = cv := by
      simp [statementCondition, hc]
    cases cv with
    | vdict d =>
      cases hse : lookupKey d "StringEquals" with
      | none =>
        refine ⟨d, [], h1, ?_, ?_⟩
        · simp [statementStringEquals, h1, Value.lookup, hse]
        · rw [h1]
          simp [injectExternalIds, Value.lookup, hse, Value.set]
      | some sev =>
        cases sev with
        | vdict m =>
          refine ⟨d, m, h1, ?_, ?_⟩
          · simp [statementStringEquals, h1, Value.lookup, hse]
          · rw [h1]
            simp [injectExternalIds, Value.lookup, hse, Value.set]
        | vnull => simp [condShapeOk, hc, hse] at h
        | vbool b => simp [condShapeOk, hc, hse] at h
        | vint n => simp [condShapeOk, hc, hse] at h
        | vstr s => simp [condShapeOk, hc, hse] at h
        | vlist l => simp [condShapeOk, hc, hse] at h
    | vnull => simp [condShapeOk, hc] at h
    | vbool b => simp [condShapeOk, hc] at h
    | vint n => simp [condShapeOk, hc] at h
    | vstr s => simp [condShapeOk, hc] at h
    | vlist l => simp [condShapeOk, hc] at h

/-!
Claim C1: principal expansion in the composite principal.
-/

theorem servicePart_eq_claim (psec : Value) (h : serviceShapeOk psec = true) :
    servicePrincipalsOf psec
      = (claimEntries (psec.lookup "Service")).map Principal.service := by
  cases hs : psec.lookup "Service" with
  | none => simp [servicePrincipalsOf, hs, claimEntries]
  | some v =>
    cases v with
    | vstr s => simp [servicePrincipalsOf, hs, claimEntries]
    | vlist l => simp [servicePrincipalsOf, hs, claimEntries, pyIter, List.map_map]
    | vnull => simp [serviceShapeOk, hs] at h
    | vbool b => simp [serviceShapeOk, hs] at h
    | vint n => simp [serviceShapeOk, hs] at h
    | vdict d => simp [serviceShapeOk, hs] at h

theorem awsPart_eq_claim (psec : Value) (h : awsShapeOk psec = true) :
    awsPrincipalsOf psec
      = (claimEntries (psec.lookup "AWS")).map (fun a =>
          if pyIsDigit a then Principal.arnP ("arn:aws:iam::" ++ a ++ ":root")
          else Principal.arnP a) := by
  cases hs : psec.lookup "AWS" with
  | none => simp [awsPrincipalsOf, hs, claimEntries]
  | some v =>
    cases v with
    | vstr s => simp [awsPrincipalsOf, hs, claimEntries]
    | vlist l => simp [awsPrincipalsOf, hs, claimEntries, pyIter, List.map_map]
    | vnull => simp [awsShapeOk, hs] at h
    | vbool b => simp [awsShapeOk, hs] at h
    | vint n => simp [awsShapeOk, hs] at h
    | vdict d => simp [awsShapeOk, hs] at h

theorem principals_eq_claim (stmt : Value) (h : principalShapeOk stmt = true) :
    get_principals_from_statement stmt = claimPrincipalsOfStatement stmt := by
  cases hp : stmt.lookup "Principal" with
  | none => simp [get_principals_from_statement, claimPrincipalsOfStatement, hp]
  | some psec =>
    simp only [principalShapeOk, hp, Bool.and_eq_true] at h
    simp [get_principals_from_statement, claimPrincipalsOfStatement, hp,
      servicePart_eq_claim psec h.1, awsPart_eq_claim psec h.2]

/-- C1: for every trust policy whose statements carry principal sections
of the claimed shapes, the composite principal handed to the role is
exactly the concatenation, in statement order, of the single-purpose
expansions of each statement's principal entries: each Service entry one
service principal, each digit-string AWS entry the account-root ARN
principal, each other AWS entry an ARN principal with that exact string.
The external-ids value does not alter the principals. -/
theorem trust_policy_principals_single_purpose (trust_policy external_ids : Value)
    (h : ∀ stmt ∈ trustStatements trust_policy, principalShapeOk stmt = true) :
    compositePrincipals (create_assume_role_policy_statements trust_policy external_ids)
      = ((trustStatements trust_policy).map claimPrincipalsOfStatement).flatten := by
  unfold compositePrincipals create_assume_role_policy_statements
  rw [List.map_map]
  congr 1
  apply List.map_congr_left
  intro stmt hstmt
  have hpr : (mkAssumeStatement external_ids stmt).principals
      = get_principals_from_statement stmt := rfl
  simp only [Function.comp_apply, hpr]
  exact principals_eq_claim stmt (h stmt hstmt)

/-- Witness for C1 at the concrete trust policy c1TrustPolicy. -/
theorem trust_policy_principals_single_purpose_witness :
    compositePrincipals (create_assume_role_policy_statements c1TrustPolicy (Value.vlist []))
      = ((trustStatements c1TrustPolicy).map claimPrincipalsOfStatement).flatten :=
  trust_policy_principals_single_purpose c1TrustPolicy (Value.vlist []) (by decide)

/-!
Claim C4: external-id injection into the StringEquals trust condition.
-/

/-- C4: statements are built one-to-one from the trust policy. With a
non-empty externalIds list, every built statement carries a condition
dictionary whose StringEquals block maps sts:ExternalId to that exact
list; all other condition keys, and all other StringEquals keys, are the
statement's own. With an empty externalIds list, the statement's
condition block is passed through unchanged (an empty block becoming the
absent conditions=None). -/
theorem external_ids_condition_injected (trust_policy : Value) (ids : List Value)
    (stmt : Value) (hshape : condShapeOk stmt = true) :
    create_assume_role_policy_statements trust_policy (Value.vlist ids)
        = (trustStatements trust_policy).map (mkAssumeStatement (Value.vlist ids))
    ∧ (ids ≠ [] →
        ∃ c se, (mkAssumeStatement (Value.vlist ids) stmt).conditions = some c
          ∧ c.lookup "StringEquals" = some se
          ∧ se.lookup "sts:ExternalId" = some (Value.vlist ids)
          ∧ (∀ k, k ≠ "StringEquals" → c.lookup k = (statementCondition stmt).lookup k)
          ∧ (∀ k, k ≠ "sts:ExternalId" → se.lookup k = (statementStringEquals stmt).lookup k))
    ∧ (mkAssumeStatement (Value.vlist []) stmt).conditions
        = (if (statementCondition stmt).truthy then some (statementCondition stmt) else none) := by
  refine ⟨rfl, ?_, ?_⟩
  · intro hne
    obtain ⟨d, m, hd, hm, hinj⟩ := condShape_dest stmt (Value.vlist ids) hshape
    have htr : (Value.vlist ids).truthy = true := by
      cases ids with
      | nil => exact absurd rfl hne
      | cons a l => simp [Value.truthy]
    have hkeep : (setKey d "StringEquals"
        (Value.vdict (setKey m "sts:ExternalId" (Value.vlist ids)))).isEmpty = false := by
      cases hsk : setKey d "StringEquals"
          (Value.vdict (setKey m "sts:ExternalId" (Value.vlist ids))) with
      | nil => exact absurd hsk (setKey_ne_nil _ _ _)
      | cons a l => rfl
    have hcond : (mkAssumeStatement (Value.vlist ids) stmt).conditions
        = some (Value.vdict (setKey d "StringEquals"
            (Value.vdict (setKey m "sts:ExternalId" (Value.vlist ids))))) := by
      simp only [mkAssumeStatement, htr, if_true]
      rw [hinj]
      simp [Value.truthy, hkeep]
    refine ⟨_, Value.vdict (setKey m "sts:ExternalId" (Value.vlist ids)), hcond,
      ?_, ?_, ?_, ?_⟩
    · simp [Value.lookup, lookupKey_setKey_self]
    · simp [Value.lookup, lookupKey_setKey_self]
    · intro k hk
      rw [hd]
      simp [Value.lookup, lookupKey_setKey_ne _ _ _ _ hk]
    · intro k hk
      rw [hm]
      simp [Value.lookup, lookupKey_setKey_ne _ _ _ _ hk]
  · simp [mkAssumeStatement, Value.truthy]

/-- Witness for C4 at the concrete statement c4Statement with external id
list ["12345"]. -/
theorem external_ids_condition_injected_witness :
    ∃ c se, (mkAssumeStatement (Value.vlist [Value.vstr "12345"]) c4Statement).conditions = some c
      ∧ c.lookup "StringEquals" = some se
      ∧ se.lookup "sts:ExternalId" = some (Value.vlist [Value.vstr "12345"])
      ∧ (∀ k, k ≠ "StringEquals" → c.lookup k = (statementCondition c4Statement).lookup k)
      ∧ (∀ k, k ≠ "sts:ExternalId" → se.lookup k = (statementStringEquals c4Statement).lookup k) :=
  (external_ids_condition_injected (Value.vdict []) [Value.vstr "12345"] c4Statement
    (by decide)).2.1 (List.cons_ne_nil _ _)

/-!
More association-list lemmas, for delKey.
-/

theorem lookupKey_eq_none_of_not_mem {β : Type} (d : List (String × β)) (k : String)
    (h : k ∉ d.map Prod.fst) : lookupKey d k = none := by
  induction d with
  | nil => simp [lookupKey]
  | cons hd tl ih =>
    obtain ⟨k0, v0⟩ := hd
    simp only [List.map_cons, List.mem_cons, not_or] at h
    simp [lookupKey, Ne.symm h.1, ih h.2]

theorem lookupKey_delKey_self {β : Type} (d : List (String × β)) (k : String)
    (h : (d.map Prod.fst).Nodup) : lookupKey (delKey d k) k = none := by
  induction d with
  | nil => simp [delKey, lookupKey]
  | cons hd tl ih =>
    obtain ⟨k0, v0⟩ := hd
    simp only [List.map_cons, List.nodup_cons] at h
    by_cases hk : k0 = k
    · subst hk
      simp [delKey, lookupKey_eq_none_of_not_mem tl k0 h.1]
    · simp [delKey, hk, lookupKey, ih h.2]

theorem lookupKey_delKey_ne {β : Type} (d : List (String × β)) (k k2 : String)
    (h : k2 ≠ k) : lookupKey (delKey d k) k2 = lookupKey d k2 := by
  induction d with
  | nil => simp [delKey]
  | cons hd tl ih =>
    obtain ⟨k0, v0⟩ := hd
    by_cases hk : k0 = k
    · subst hk
      simp [delKey, lookupKey, Ne.symm h]
    · simp only [delKey, if_neg hk, lookupKey]
      by_cases hk2 : k0 = k2
      · simp [hk2]
      · simp [hk2, ih]

/-!
Claims C5 and C7: inline policies.
-/

theorem backup_inline_foldl (entries : List (String × Value)) (acc : List (String × Value)) :
    entries.foldl
        (fun acc kv =>
          if kv.2.truthy then acc ++ [(kv.1, stripDocEmptyConds kv.2)] else acc) acc
      = acc ++ (entries.filter (fun kv => kv.2.truthy)).map
          (fun kv => (kv.1, stripDocEmptyConds kv.2)) := by
  induction entries generalizing acc with
  | nil => simp
  | cons kv rest ih =>
    cases ht : kv.2.truthy with
    | true => simp [List.foldl_cons, ht, ih, List.filter_cons]
    | false => simp [List.foldl_cons, ht, ih, List.filter_cons]

/-- C5 (amended): the backup stack embeds each truthy inline-policy
document under its name with empty Condition blocks stripped (a present
falsy Condition is deleted, a truthy one and all other statement keys are
untouched); the current stack instead embeds, under the given name, a
document whose statements are rebuilt from Action and Resource only; and
the backup stack attaches managed policies purely as the configured ARN
list. -/
theorem inline_policies_embedding_amended :
    (∀ entries : List (String × Value),
      create_inline_policies_backup (Value.vdict entries)
        = (entries.filter (fun kv => kv.2.truthy)).map
            (fun kv => (kv.1, stripDocEmptyConds kv.2)))
    ∧ (∀ d : List (String × Value), (d.map Prod.fst).Nodup →
        ((stripStatementEmptyCond (Value.vdict d)).lookup "Condition"
          = (match lookupKey d "Condition" with
             | some c => if c.truthy then some c else none
             | none => none))
        ∧ (∀ k, k ≠ "Condition" →
            (stripStatementEmptyCond (Value.vdict d)).lookup k = lookupKey d k))
    ∧ (∀ (name : String) (doc : Value),
        create_inline_policies (Value.vlist [Value.vdict
          [("policyName", Value.vstr name), ("policyDocument", doc)]])
          = [(name, rebuildStatements doc)])
    ∧ (∀ role rn, role.lookup "roleName" = some rn →
        Except.map CfnRole.managedPolicyArns (create_iam_role_backup role)
          = Except.ok (match role.lookup "managedPolicies" with
              | some v => if v.truthy then some v else none
              | none => none)) := by
  refine ⟨?_, ?_, ?_, ?_⟩
  · intro entries
    simp [create_inline_policies_backup, backup_inline_foldl]
  · intro d hnd
    constructor
    · cases hc : lookupKey d "Condition" with
      | none => simp [stripStatementEmptyCond, Value.lookup, hc]
      | some c =>
        cases hct : c.truthy with
        | true => simp [stripStatementEmptyCond, Value.lookup, hc, hct]
        | false =>
          simp [stripStatementEmptyCond, Value.lookup, hc, hct, Value.del,
            lookupKey_delKey_self d "Condition" hnd]
    · intro k hk
      cases hc : lookupKey d "Condition" with
      | none => simp [stripStatementEmptyCond, Value.lookup, hc]
      | some c =>
        cases hct : c.truthy with
        | true => simp [stripStatementEmptyCond, Value.lookup, hc, hct]
        | false =>
          simp [stripStatementEmptyCond, Value.lookup, hc, hct, Value.del,
            lookupKey_delKey_ne d "Condition" k hk]
  · intro name doc
    simp [create_inline_policies, pyIter, pyContains, pyIndex, Value.lookup,
      lookupKey, pyStr, setKey]
  · intro role rn hrn
    simp [create_iam_role_backup, hrn, Except.map]

/-- C5 counterexample: on the current stack, the inline policy attached
for c5Config is not the named document with empty Condition blocks
stripped — the statement's non-empty Condition block is dropped entirely
by the rebuild. -/
theorem inline_policies_condition_kept_counterexample :
    (create_inline_policies c5Config).map (fun kv => (kv.1, renderPolicyDocument kv.2))
      ≠ [("p1", stripDocEmptyConds c5Doc)] := by
  intro h
  have h2 := congrArg (fun l => l.map (fun kv => docHasCondition kv.2)) h
  exact absurd h2 (by decide)

/-- Witness for the amended C5 at concrete inputs. -/
theorem inline_policies_embedding_amended_witness :
    ((stripStatementEmptyCond (Value.vdict c5WitnessStmt)).lookup "Condition"
        = (match lookupKey c5WitnessStmt "Condition" with
           | some c => if c.truthy then some c else none
           | none => none))
    ∧ Except.map CfnRole.managedPolicyArns (create_iam_role_backup c5WitnessRole)
        = Except.ok (match c5WitnessRole.lookup "managedPolicies" with
            | some v => if v.truthy then some v else none
            | none => none) :=
  ⟨(inline_policies_embedding_amended.2.1 c5WitnessStmt (by decide)).1,
   inline_policies_embedding_amended.2.2.2 c5WitnessRole (Value.vstr "r1") rfl⟩

/-- C7: on the current stack the two documented inlinePolicies shapes do
not agree: iterating the mapping shape yields its keys, for which the
substring test for policyName fails, so no inline policy is attached —
contradicting test_inline_policy_creation, which feeds the mapping shape
to this stack and expects the policy attached. The list shape attaches
the policy. -/
theorem inline_policy_shapes_diverge :
    create_inline_policies c7Mapping = []
    ∧ create_inline_policies c7Listing
        = [("s3ReadOnlyPolicy",
            [{ actions := [Value.vstr "s3:ListBucket"]
               resources := [Value.vstr "*"] }])]
    ∧ create_inline_policies c7Mapping ≠ create_inline_policies c7Listing := by
  refine ⟨rfl, rfl, ?_⟩
  intro h
  exact absurd (congrArg List.length h) (by decide)

/-!
Claim C6: the RETAIN deletion policy on the backup stack.
-/

/-- C6: the synthesized role resource of the backup stack carries the
RETAIN deletion policy exactly when the configuration's deletionPolicy
equals the string RETAIN; an absent or different value leaves it off. -/
theorem deletion_policy_retain_exact (role rn : Value)
    (hrn : role.lookup "roleName" = some rn) :
    (role.lookup "deletionPolicy" = some (Value.vstr "RETAIN") →
       Except.map CfnRole.deletionPolicyRetain (create_iam_role_backup role)
         = Except.ok true)
    ∧ (role.lookup "deletionPolicy" ≠ some (Value.vstr "RETAIN") →
       Except.map CfnRole.deletionPolicyRetain (create_iam_role_backup role)
         = Except.ok false) := by
  constructor
  · intro hdel
    simp [create_iam_role_backup, hrn, hdel, Except.map]
  · intro hdel
    cases hv : role.lookup "deletionPolicy" with
    | none => simp [create_iam_role_backup, hrn, hv, Except.map]
    | some v =>
      cases v with
      | vstr s =>
        have hs : s ≠ "RETAIN" := by
          intro hcontra
          exact hdel (by rw [hv, hcontra])
        simp [create_iam_role_backup, hrn, hv, Except.map, hs]
      | vnull => simp [create_iam_role_backup, hrn, hv, Except.map]
      | vbool b => simp [create_iam_role_backup, hrn, hv, Except.map]
      | vint n => simp [create_iam_role_backup, hrn, hv, Except.map]
      | vlist l => simp [create_iam_role_backup, hrn, hv, Except.map]
      | vdict d => simp [create_iam_role_backup, hrn, hv, Except.map]

/-- Witness for C6 at the test's concrete role configuration and at a
role with a different deletionPolicy value. -/
theorem deletion_policy_retain_exact_witness :
    Except.map CfnRole.deletionPolicyRetain (create_iam_role_backup c6Role)
      = Except.ok true
    ∧ Except.map CfnRole.deletionPolicyRetain (create_iam_role_backup c6RoleDelete)
      = Except.ok false :=
  ⟨(deletion_policy_retain_exact c6Role (Value.vstr "TestRoleWithRetain") rfl).1 rfl,
   (deletion_policy_retain_exact c6RoleDelete (Value.vstr "OtherRole") rfl).2
     (by intro h
         have h2 := congrArg (fun o => match o with | some (Value.vstr s) => s | _ => "") h
         exact absurd h2 (by decide))⟩

/-!
Claim C9: rejection of roles whose trust policy has no Statement list.
-/

/-- C9: a role whose trust policy lacks a Statement entry, or whose
Statement entry is not a list, makes create_iam_role raise ValueError
naming the role, and a stack whose configuration contains such a role —
after any prefix of well-formed roles — synthesizes no resources: the
whole construction aborts with that ValueError. -/
theorem invalid_trust_policy_rejected (role rn : Value) (pre post : List Value)
    (hrn : role.lookup "roleName" = some rn)
    (hbad : statementIsList ((role.lookup "trustPolicy").getD (Value.vdict [])) = false)
    (hpre : ∀ r ∈ pre, ∃ x, create_iam_role r = Except.ok x) :
    create_iam_role role
        = Except.error (PyError.valueError
            ("Statement should be a list for role " ++ pyStr rn))
    ∧ create_roles (pre ++ role :: post)
        = Except.error (PyError.valueError
            ("Statement should be a list for role " ++ pyStr rn)) := by
  have h1 : create_iam_role role
      = Except.error (PyError.valueError
          ("Statement should be a list for role " ++ pyStr rn)) := by
    simp [create_iam_role, hbad, hrn]
  refine ⟨h1, ?_⟩
  induction pre with
  | nil => simp [create_roles, h1]
  | cons r rest ih =>
    obtain ⟨x, hx⟩ := hpre r (by simp)
    have hrest := ih (fun r2 hr2 => hpre r2 (by simp [hr2]))
    simp [create_roles, hx, hrest]

/-- Witness for C9: the bad role is rejected with the ValueError naming
it, and a stack configured with a good role followed by the bad one
aborts with that error. -/
theorem invalid_trust_policy_rejected_witness :
    create_iam_role c9BadRole
        = Except.error (PyError.valueError "Statement should be a list for role TestRole")
    ∧ create_roles ([c9GoodRole] ++ c9BadRole :: [])
        = Except.error (PyError.valueError "Statement should be a list for role TestRole") :=
  invalid_trust_policy_rejected c9BadRole (Value.vstr "TestRole") [c9GoodRole] [] rfl rfl
    (by intro r hr
        simp only [List.mem_singleton] at hr
        subst hr
        exact ⟨_, rfl⟩)

/-!
Claims C2 and C8: configuration merging and loading.
-/

theorem lookupRoles_extendAt_self (acc : List (String × List Value)) (x : String)
    (rs : List Value) : lookupRoles (extendAt acc x rs) x = lookupRoles acc x ++ rs := by
  induction acc with
  | nil => simp [extendAt, lookupRoles, lookupKey]
  | cons hd tl ih =>
    obtain ⟨k, v⟩ := hd
    by_cases hk : k = x
    · simp [extendAt, hk, lookupRoles, lookupKey]
    · simp [extendAt, hk, lookupRoles, lookupKey]
      exact ih

theorem lookupKey_extendAt_ne (acc : List (String × List Value)) (x a : String)
    (rs : List Value) (h : a ≠ x) :
    lookupKey (extendAt acc x rs) a = lookupKey acc a := by
  induction acc with
  | nil => simp [extendAt, lookupKey, Ne.symm h]
  | cons hd tl ih =>
    obtain ⟨k, v⟩ := hd
    by_cases hk : k = x
    · subst hk
      simp [extendAt, lookupKey, Ne.symm h]
    · simp [extendAt, hk, lookupKey, ih]

theorem inner_foldl_roles (accounts : List String) (rs : List Value) :
    ∀ (acc : List (String × List Value)) (a : String),
      lookupRoles (accounts.foldl (fun acc x => extendAt acc x rs) acc) a
        = lookupRoles acc a
          ++ (accounts.map (fun x => if x = a then rs else [])).flatten := by
  induction accounts with
  | nil => intro acc a; simp
  | cons x rest ih =>
    intro acc a
    simp only [List.foldl_cons]
    rw [ih]
    by_cases hx : x = a
    · subst hx
      rw [lookupRoles_extendAt_self]
      simp [List.append_assoc]
    · have hkeep : lookupRoles (extendAt acc x rs) a = lookupRoles acc a := by
        simp [lookupRoles, lookupKey_extendAt_ne acc x a rs (Ne.symm hx)]
      rw [hkeep]
      simp [hx]

theorem combined_step_roles (doc : Value) (acc : List (String × List Value)) (a : String) :
    lookupRoles (combined_step acc doc) a
      = lookupRoles acc a
        ++ ((docAccountStrings doc).map
              (fun x => if x = a then docRoles doc else [])).flatten := by
  unfold combined_step docAccountStrings docRoles
  have h := inner_foldl_roles ((pyIter (load_account_info doc).1).map pyStr)
    (pyIter (load_account_info doc).2) acc a
  rw [List.foldl_map] at h
  exact h

theorem combined_foldl_roles (docs : List Value) :
    ∀ (acc : List (String × List Value)) (a : String),
      lookupRoles (docs.foldl combined_step acc) a
        = lookupRoles acc a
          ++ (docs.map (fun doc =>
              ((docAccountStrings doc).map
                (fun x => if x = a then docRoles doc else [])).flatten)).flatten := by
  induction docs with
  | nil => intro acc a; simp
  | cons doc rest ih =>
    intro acc a
    simp only [List.foldl_cons]
    rw [ih, combined_step_roles]
    simp [List.append_assoc]

theorem lookup_del_ne (v : Value) (k k2 : String) (h : k ≠ k2) :
    (v.del k2).lookup k = v.lookup k := by
  cases v with
  | vdict d => simp [Value.del, Value.lookup, lookupKey_delKey_ne d k2 k h]
  | vnull => rfl
  | vbool b => rfl
  | vint n => rfl
  | vstr s => rfl
  | vlist l => rfl

/-- C2 (amended): for every account, the combined configuration holds
exactly the concatenation, in file order and per occurrence of the
account id, of the roles lists of the documents naming that account
(with no deduplication — a role listed twice appears twice); and the
combined configuration reads only account_id and roles: it is invariant
under any change to the documents' iam_policies entries, which are not
combined. -/
theorem combined_configs_concatenate_roles_only :
    (∀ (docs : List Value) (a : String),
      lookupRoles (combined_configs docs) a
        = (docs.map (fun doc =>
            ((docAccountStrings doc).map
              (fun x => if x = a then docRoles doc else [])).flatten)).flatten)
    ∧ (∀ docs : List Value,
        combined_configs (docs.map (fun doc => doc.del "iam_policies"))
          = combined_configs docs) := by
  constructor
  · intro docs a
    have h := combined_foldl_roles docs [] a
    simpa [combined_configs, lookupRoles, lookupKey] using h
  · intro docs
    have hstep : ∀ (acc : List (String × List Value)) (doc : Value),
        combined_step acc (doc.del "iam_policies") = combined_step acc doc := by
      intro acc doc
      unfold combined_step
      have h1 : load_account_info (doc.del "iam_policies") = load_account_info doc := by
        unfold load_account_info
        rw [lookup_del_ne doc "account_id" "iam_policies" (by decide),
          lookup_del_ne doc "roles" "iam_policies" (by decide)]
      rw [h1]
    unfold combined_configs
    rw [List.foldl_map]
    simp only [hstep]

/-- C2 counterexample: the code's combined configuration does not depend
on iam_policies at all (two documents differing only there combine
identically), while the claimed combination concatenates the
iam_policies lists and so distinguishes them: the claimed iam_policies
concatenation is not performed. -/
theorem combined_configs_policies_counterexample :
    combined_configs [c2DocA] = combined_configs [c2DocB]
    ∧ spec_combined_configs [c2DocA] ≠ spec_combined_configs [c2DocB] := by
  refine ⟨rfl, ?_⟩
  intro h
  have h2 := congrArg (fun l => l.map (fun kv => kv.2.2.length)) h
  exact absurd h2 (by decide)

/-- C8: a document whose account_id is the bare string s loads exactly as
the same document with account_id equal to the one-element list [s]; and
with region absent from every document, every created stack carries the
fixed default region us-east-1 (the code never reads a region entry, so
the default applies). -/
theorem account_id_and_region_defaults (d : List (String × Value)) (s : String)
    (docs : List Value)
    (_hreg : ∀ doc ∈ docs, doc.lookup "region" = none) :
    load_account_info (Value.vdict (("account_id", Value.vstr s) :: d))
        = load_account_info (Value.vdict (("account_id", Value.vlist [Value.vstr s]) :: d))
    ∧ (make_stacks docs).all (fun st => st.region == "us-east-1") = true := by
  constructor
  · simp [load_account_info, Value.lookup, lookupKey]
  · rw [List.all_eq_true]
    intro st hst
    simp only [make_stacks, List.mem_map] at hst
    obtain ⟨kv, hkv, rfl⟩ := hst
    rfl

/-- Witness for C8 at concrete inputs. -/
theorem account_id_and_region_defaults_witness :
    load_account_info (Value.vdict
        (("account_id", Value.vstr "596905249077") :: [("roles", Value.vlist [])]))
      = load_account_info (Value.vdict
        (("account_id", Value.vlist [Value.vstr "596905249077"]) :: [("roles", Value.vlist [])]))
    ∧ (make_stacks [c8Doc]).all (fun st => st.region == "us-east-1") = true :=
  account_id_and_region_defaults [("roles", Value.vlist [])] "596905249077" [c8Doc]
    (by intro doc hd
        simp only [List.mem_singleton] at hd
        subst hd
        rfl)

/-- C3 counterexample: the claimed set difference keeps c3AwsRole, but
the script drops it — its ARN starts with arn:aws:iam::aws:role/, an
exclusion the claim does not list (and the short-circuit on that check
is also why this input runs to completion at all). -/
theorem discovery_emitted_roles_counterexample :
    emitted_roles [c3AwsRole] [] = Except.ok []
    ∧ claim_emitted_roles [c3AwsRole] [] = [c3AwsRole]
    ∧ emitted_roles [c3AwsRole] []
        ≠ Except.ok (claim_emitted_roles [c3AwsRole] []) := by
  refine ⟨rfl, by decide, ?_⟩
  intro h
  have h2 := congrArg (fun e => match e with
    | Except.ok l => List.length l
    | Except.error _ => 0) h
  exact absurd h2 (by decide)

/-- C3 (amended): the discovery script never computes the claimed set
difference. When every listed role is excluded by the ARN check or the
reserved-path check, the emitted role set is empty; as soon as one role
survives both checks the listing aborts with NameError (the body of
list_iam_roles reads exclude_role_prefixes while its parameter is
exclude_role_prefix), so the name-prefix and CloudFormation exclusions
are never reached and nothing is emitted. -/
theorem discovery_emitted_roles_amended (roles : List IamRole)
    (cf_stack_role_names : List String) :
    ((∀ r ∈ roles, pyStartsWith r.arn "arn:aws:iam::aws:role/" = true
        ∨ ∃ p ∈ excludePaths, pyStartsWith r.path p = true) →
      emitted_roles roles cf_stack_role_names = Except.ok [])
    ∧ ((∃ r ∈ roles, pyStartsWith r.arn "arn:aws:iam::aws:role/" = false
        ∧ ∀ p ∈ excludePaths, pyStartsWith r.path p = false) →
      emitted_roles roles cf_stack_role_names
        = Except.error (PyError.nameError "exclude_role_prefixes")) := by
  have hmain :
      ((∀ r ∈ roles, pyStartsWith r.arn "arn:aws:iam::aws:role/" = true
          ∨ ∃ p ∈ excludePaths, pyStartsWith r.path p = true) →
        list_iam_roles excludePaths excludeRoleNameStarts roles = Except.ok [])
      ∧ ((∃ r ∈ roles, pyStartsWith r.arn "arn:aws:iam::aws:role/" = false
          ∧ ∀ p ∈ excludePaths, pyStartsWith r.path p = false) →
        list_iam_roles excludePaths excludeRoleNameStarts roles
          = Except.error (PyError.nameError "exclude_role_prefixes")) := by
    induction roles with
    | nil =>
      constructor
      · intro _
        rfl
      · rintro ⟨r, hmem, _⟩
        simp at hmem
    | cons role rest ih =>
      constructor
      · intro h
        have hrole := h role (by simp)
        have hrest := ih.1 (fun r hr => h r (by simp [hr]))
        cases harn : pyStartsWith role.arn "arn:aws:iam::aws:role/" with
        | true => simp [list_iam_roles, harn, hrest]
        | false =>
          have hpath : ∃ p ∈ excludePaths, pyStartsWith role.path p = true := by
            cases hrole with
            | inl h1 =>
              rw [harn] at h1
              exact Bool.noConfusion h1
            | inr h2 => exact h2
          have hany : excludePaths.any (fun p => pyStartsWith role.path p) = true := by
            obtain ⟨p, hp, hps⟩ := hpath
            exact List.any_eq_true.mpr ⟨p, hp, hps⟩
          simp [list_iam_roles, harn, hany, hrest]
      · rintro ⟨r, hmem, harn, hpaths⟩
        rw [List.mem_cons] at hmem
        cases hmem with
        | inl hre =>
          subst hre
          have hany : excludePaths.any (fun p => pyStartsWith r.path p) = false :=
            List.any_eq_false.mpr (fun p hp => by simp [hpaths p hp])
          simp [list_iam_roles, harn, hany]
        | inr hre =>
          have hrest := ih.2 ⟨r, hre, harn, hpaths⟩
          cases harn2 : pyStartsWith role.arn "arn:aws:iam::aws:role/" with
          | true => simp [list_iam_roles, harn2, hrest]
          | false =>
            cases hany2 : excludePaths.any (fun p => pyStartsWith role.path p) with
            | true => simp [list_iam_roles, harn2, hany2, hrest]
            | false => simp [list_iam_roles, harn2, hany2]
  constructor
  · intro h
    unfold emitted_roles
    rw [hmain.1 h]
    rfl
  · intro h
    unfold emitted_roles
    rw [hmain.2 h]

/-- Witness for the amended C3: an input the script completes on (the
ARN-excluded role, emitting the empty set) and an input on which the
listing raises the NameError (a plain role surviving both checks). -/
theorem discovery_emitted_roles_amended_witness :
    emitted_roles [c3AwsRole] [] = Except.ok []
    ∧ emitted_roles [c3PlainRole] []
        = Except.error (PyError.nameError "exclude_role_prefixes") :=
  ⟨(discovery_emitted_roles_amended [c3AwsRole] []).1 (by decide),
   (discovery_emitted_roles_amended [c3PlainRole] []).2 (by decide)⟩

theorem flatten_chunksOf_bounded {α : Type} (n : Nat) (hn : 0 < n) :
    ∀ (k : Nat) (l : List α), l.length ≤ k → (chunksOf n l).flatten = l := by
  intro k
  induction k with
  | zero =>
    intro l hl
    have h0 : l = [] := List.eq_nil_of_length_eq_zero (Nat.le_zero.mp hl)
    subst h0
    rw [chunksOf]
    simp
  | succ k ih =>
    intro l hl
    by_cases he : l.isEmpty
    · rw [chunksOf, dif_pos he]
      simp [List.isEmpty_iff.mp he]
    · have hn0 : ¬(n = 0) := Nat.pos_iff_ne_zero.mp hn
      rw [chunksOf, dif_neg he, dif_neg hn0, List.flatten_cons]
      rw [ih (l.drop n) ?hlen]
      · exact List.take_append_drop n l
      case hlen =>
        have hnl : l.length ≠ 0 := by
          intro hz
          exact he (List.isEmpty_iff.mpr (List.eq_nil_of_length_eq_zero hz))
        simp only [List.length_drop]
        omega

theorem flatten_chunksOf {α : Type} (n : Nat) (l : List α) (hn : 0 < n) :
    (chunksOf n l).flatten = l :=
  flatten_chunksOf_bounded n hn l.length l le_rfl

theorem chunksOf_length_le_bounded {α : Type} (n : Nat) :
    ∀ (k : Nat) (l : List α), l.length ≤ k → ∀ c ∈ chunksOf n l, c.length ≤ n := by
  intro k
  induction k with
  | zero =>
    intro l hl c hc
    have h0 : l = [] := List.eq_nil_of_length_eq_zero (Nat.le_zero.mp hl)
    subst h0
    rw [chunksOf] at hc
    simp at hc
  | succ k ih =>
    intro l hl c hc
    by_cases he : l.isEmpty
    · rw [chunksOf, dif_pos he] at hc
      simp at hc
    · by_cases hn0 : n = 0
      · rw [chunksOf, dif_neg he, dif_pos hn0] at hc
        simp at hc
      · rw [chunksOf, dif_neg he, dif_neg hn0, List.mem_cons] at hc
        cases hc with
        | inl hcz =>
          subst hcz
          rw [List.length_take]
          exact min_le_left _ _
        | inr hcz =>
          refine ih (l.drop n) ?_ c hcz
          have hnl : l.length ≠ 0 := by
            intro hz
            exact he (List.isEmpty_iff.mpr (List.eq_nil_of_length_eq_zero hz))
          have hn : 0 < n := Nat.pos_of_ne_zero hn0
          simp only [List.length_drop]
          omega

theorem chunksOf_length_le {α : Type} (n : Nat) (l : List α) :
    ∀ c ∈ chunksOf n l, c.length ≤ n :=
  chunksOf_length_le_bounded n l.length l le_rfl

theorem filter_flatten_eq {α : Type} (p : α → Bool) (L : List (List α)) :
    (L.map (List.filter p)).flatten = (L.flatten).filter p := by
  induction L with
  | nil => simp
  | cons c rest ih =>
    rw [List.map_cons, List.flatten_cons, List.flatten_cons, List.filter_append, ih]

theorem mapIdx_map_proj {α β γ : Type} (l : List α) (f : Nat → α → β) (g : β → γ)
    (q : α → γ) (h : ∀ i a, g (f i a) = q a) : (l.mapIdx f).map g = l.map q := by
  rw [List.mapIdx_eq_enum_map, List.map_map]
  have hfun : (g ∘ Function.uncurry f) = fun p : Nat × α => q p.2 := by
    funext p
    exact h p.1 p.2
  rw [hfun]
  have h2 : (fun p : Nat × α => q p.2) = q ∘ Prod.snd := rfl
  rw [h2, ← List.map_map, List.enum_map_snd]

theorem filter_partition_length {α : Type} (p q : α → Bool) :
    ∀ c : List α,
      (∀ x ∈ c, (p x = true ∧ q x = false) ∨ (q x = true ∧ p x = false)) →
      (c.filter p).length + (c.filter q).length = c.length := by
  intro c
  induction c with
  | nil => intro _; simp
  | cons a t ih =>
    intro h
    have ha := h a (by simp)
    have ht := ih (fun x hx => h x (by simp [hx]))
    cases ha with
    | inl hc => simp [List.filter_cons, hc.1, hc.2, ht]; omega
    | inr hc => simp [List.filter_cons, hc.1, hc.2, ht]; omega

/-- C10: with every resource carrying exactly one of the two keys
(policies have policyName and no roleName, roles the reverse), splitting
at 450 is a partition that round-trips: each emitted file holds at most
450 resources, and concatenating the per-file policy lists, and the
per-file role lists, across files in order reconstructs the original
iam_policies and roles lists. -/
theorem split_yaml_round_trip (iam_policies roles : List Value) (stack_name : String)
    (hp : ∀ x ∈ iam_policies,
      pyContains x "policyName" = true ∧ pyContains x "roleName" = false)
    (hr : ∀ x ∈ roles,
      pyContains x "roleName" = true ∧ pyContains x "policyName" = false) :
    (∀ chunk ∈ split_yaml_content iam_policies roles stack_name 450,
        chunk.iam_policies.length + chunk.roles.length ≤ 450)
    ∧ ((split_yaml_content iam_policies roles stack_name 450).map
        YamlChunk.iam_policies).flatten = iam_policies
    ∧ ((split_yaml_content iam_policies roles stack_name 450).map
        YamlChunk.roles).flatten = roles := by
  have h450 : (0 : Nat) < 450 := by decide
  have hflat : (chunksOf 450 (iam_policies ++ roles)).flatten = iam_policies ++ roles :=
    flatten_chunksOf 450 _ h450
  have hmapP : (split_yaml_content iam_policies roles stack_name 450).map
      YamlChunk.iam_policies
        = (chunksOf 450 (iam_policies ++ roles)).map
            (List.filter (fun resource => pyContains resource "policyName")) := by
    unfold split_yaml_content
    exact mapIdx_map_proj _ _ _ _ (fun i a => rfl)
  have hmapR : (split_yaml_content iam_policies roles stack_name 450).map
      YamlChunk.roles
        = (chunksOf 450 (iam_policies ++ roles)).map
            (List.filter (fun resource => pyContains resource "roleName")) := by
    unfold split_yaml_content
    exact mapIdx_map_proj _ _ _ _ (fun i a => rfl)
  refine ⟨?_, ?_, ?_⟩
  · intro chunk hc
    unfold split_yaml_content at hc
    rw [List.mapIdx_eq_enum_map, List.mem_map] at hc
    obtain ⟨⟨i, c⟩, hmem, rfl⟩ := hc
    have hcmem : c ∈ chunksOf 450 (iam_policies ++ roles) := by
      rw [← List.enum_map_snd (chunksOf 450 (iam_policies ++ roles))]
      exact List.mem_map_of_mem Prod.snd hmem
    have hlen : c.length ≤ 450 := chunksOf_length_le 450 _ c hcmem
    have hsub : ∀ x ∈ c, x ∈ iam_policies ++ roles := by
      intro x hx
      rw [← hflat]
      exact List.mem_flatten.mpr ⟨c, hcmem, hx⟩
    have hpart : (c.filter (fun r => pyContains r "policyName")).length
        + (c.filter (fun r => pyContains r "roleName")).length = c.length := by
      apply filter_partition_length
      intro x hx
      rcases List.mem_append.mp (hsub x hx) with hxp | hxr
      · exact Or.inl (hp x hxp)
      · exact Or.inr (hr x hxr)
    show (c.filter (fun r => pyContains r "policyName")).length
        + (c.filter (fun r => pyContains r "roleName")).length ≤ 450
    rw [hpart]
    exact hlen
  · rw [hmapP, filter_flatten_eq, hflat, List.filter_append]
    rw [List.filter_eq_self.mpr (fun a ha => (hp a ha).1)]
    rw [List.filter_eq_nil_iff.mpr (fun a ha => by simp [(hr a ha).2])]
    simp
  · rw [hmapR, filter_flatten_eq, hflat, List.filter_append]
    rw [List.filter_eq_self.mpr (fun a ha => (hr a ha).1)]
    rw [List.filter_eq_nil_iff.mpr (fun a ha => by simp [(hp a ha).2])]
    simp

/-- Witness for C10 at a one-policy, one-role structure. -/
theorem split_yaml_round_trip_witness :
    (∀ chunk ∈ split_yaml_content [c10Policy] [c10Role]
        "iam-role-policies-pipeline-stack" 450,
        chunk.iam_policies.length + chunk.roles.length ≤ 450)
    ∧ ((split_yaml_content [c10Policy] [c10Role]
        "iam-role-policies-pipeline-stack" 450).map YamlChunk.iam_policies).flatten
        = [c10Policy]
    ∧ ((split_yaml_content [c10Policy] [c10Role]
        "iam-role-policies-pipeline-stack" 450).map YamlChunk.roles).flatten
        = [c10Role] :=
  split_yaml_round_trip [c10Policy] [c10Role] "iam-role-policies-pipeline-stack"
    (by decide) (by decide)
